import Mathlib

/-!
Verification development for the memex repository (src/src/lib.rs,
src/src/api.rs, src/src/main.rs): a shallow embedding in Lean 4 of the
extraction pipeline, the bounded hand-off channel, and the search-serving
logic, together with theorems settling the specification claims.

Filesystem reads, subprocess invocations and HTTP decoding are modelled as
explicit environment values passed to the embedded functions; the external
tantivy engine's schema option types are modelled from tantivy's documented
semantics where the repository's code inspects them.
-/

namespace Memex

/-- Entry: the intermediate record produced by extraction
(src/src/lib.rs lines 16-22). -/
structure Entry where
  title : String
  body : Option String
  loc : Option String
  archive_loc : Option String
deriving Repr, DecidableEq

/-- Webloc: the deserialized property list of a .webloc file
(src/src/lib.rs lines 24-30): optional Name, required URL. -/
structure Webloc where
  name : Option String
  url : String
deriving Repr, DecidableEq

/-- Characters strictly before the last dot of the list; the dot itself and
everything after it are dropped. Empty when the list has no dot. Helper for
the model of Rust Path::file_stem. -/
def beforeLastDot : List Char → List Char
  | [] => []
  | c :: cs => if cs.contains '.' then c :: beforeLastDot cs else []

/-- Model of Rust Path::file_stem on a file name (std split_file_at_dot):
the name ".." is its own stem; otherwise the last dot is searched among the
characters after the first one (so ".txt" is a whole stem), and the stem is
everything before that dot; a name with no such dot is its own stem. -/
def stemOfName (name : String) : String :=
  if name = ".." then name
  else
    match name.data with
    | [] => ""
    | c :: rest =>
      if rest.contains '.' then String.mk (c :: beforeLastDot rest) else name

/-- Characters after the last '/' of the list; the whole list when it has
no slash. -/
def afterLastSlash : List Char → List Char
  | [] => []
  | c :: cs => if c = '/' || cs.contains '/' then afterLastSlash cs else c :: cs

/-- The file-name component of a path string: the part after the last '/'
(paths produced by the walker carry no trailing slash). -/
def fileName (path : String) : String :=
  String.mk (afterLastSlash path.data)

/-- Model of fn filename (src/src/lib.rs lines 56-58):
p.file_stem().unwrap().into_string().unwrap(). The panic on a path with no
file stem is modelled as the empty string. -/
def filename (path : String) : String :=
  stemOfName (fileName path)

/-- Model of Rust Path::extension().is_some() on a path: the file name is
not ".." and has a dot after its first character. -/
def hasExtension (path : String) : Bool :=
  let name := fileName path
  if name = ".." then false
  else
    match name.data with
    | [] => false
    | _ :: rest => rest.contains '.'

/-- Characters strictly after the last dot of the list; empty when the list
has no dot. Helper for the model of str::rsplit_once on the full path. -/
def afterLastDot : List Char → List Char
  | [] => []
  | c :: cs => if c = '.' && !(cs.contains '.') then cs else afterLastDot cs

/-- Model of path.rsplit_once(".") as used by digest (src/src/lib.rs line
86): the substring of the WHOLE path string after its last '.', or none when
the path contains no dot at all. Note this looks at the full path, slashes
included, not at the file-name component. -/
def extensionOf (path : String) : Option String :=
  if path.data.contains '.' then some (String.mk (afterLastDot path.data))
  else none

/-- Model of fn handle_webloc (src/src/lib.rs lines 32-40). The plist parse
of the file is an explicit input: error propagates; otherwise the Entry uses
Name when present, else the file stem, and carries the URL in loc. -/
def handle_webloc (path : String) (parsed : Except String Webloc) :
    Except String (Option Entry) :=
  match parsed with
  | .error e => .error e
  | .ok w =>
    .ok (some { title := w.name.getD (filename path),
                loc := some w.url, body := none, archive_loc := none })

/-- Model of fn handle_text (src/src/lib.rs lines 42-53). The file read is
an explicit input: error propagates; otherwise the Entry carries the full
contents as body and the path as archive_loc. -/
def handle_text (path : String) (contents : Except String String) :
    Except String (Option Entry) :=
  match contents with
  | .error e => .error e
  | .ok s =>
    .ok (some { title := filename path,
                loc := none, body := some s, archive_loc := some path })

/-- Environment of one handle_pdf call: the outcome of spawning pdftotext
(Command::output errs only when the spawn itself fails, since the exit
status is discarded by the source), whether pdftotext produced the temporary
file, and the outcome of opening and reading that file back as UTF-8. -/
structure PdfEnv where
  spawn : Except String Unit
  tmpCreated : Bool
  readBack : Except String String
deriving Repr

/-- Model of fn handle_pdf (src/src/lib.rs lines 60-81). Returns the result
together with whether the temporary extraction file still exists when the
call returns. Tracing the source: a spawn error returns early with no file
created; if pdftotext produced no file, File::open fails and returns early;
if the read back fails (for example invalid UTF-8), the early return happens
BEFORE std::fs::remove_file, so the temporary file remains; only the success
path reaches remove_file. -/
def handle_pdf (path : String) (env : PdfEnv) :
    Except String (Option Entry) × Bool :=
  match env.spawn with
  | .error e => (.error e, false)
  | .ok _ =>
    if env.tmpCreated then
      match env.readBack with
      | .error e => (.error e, true)
      | .ok s =>
        (.ok (some { title := filename path,
                     loc := none, body := some s,
                     archive_loc := some path }), false)
    else
      (.error "No such file or directory", false)

/-- Environment of one digest call: the per-handler effect outcomes. -/
structure DigestEnv where
  pdf : PdfEnv
  textContents : Except String String
  weblocParsed : Except String Webloc
deriving Repr

/-- Model of fn digest (src/src/lib.rs lines 85-101): dispatch on the
segment after the last '.' of the full path string; a path with no dot
yields a bare-filename Entry; unmatched extensions yield no Entry. -/
def digest (path : String) (env : DigestEnv) : Except String (Option Entry) :=
  match extensionOf path with
  | some ext =>
    if ext = "pdf" then (handle_pdf path env.pdf).1
    else if ext = "txt" ∨ ext = "markdown" ∨ ext = "md" then
      handle_text path env.textContents
    else if ext = "webloc" then handle_webloc path env.weblocParsed
    else .ok none
  | none =>
    .ok (some { title := filename path,
                archive_loc := some path, body := none, loc := none })

example : filename "/home/u/a.txt" = "a" := by decide
example : filename "/home/u/.bashrc" = ".bashrc" := by decide
example : extensionOf "/a.d/README" = some "d/README" := by decide
example : extensionOf "README" = none := by decide
example : extensionOf "b/a.tar.gz" = some "gz" := by decide

/-- Model of tantivy TextFieldIndexing: the tokenizer name (the record
option does not matter to the code under study). -/
structure TextFieldIndexing where
  tokenizer : String
deriving Repr, DecidableEq

/-- Model of tantivy TextOptions: optional indexing options and a stored
flag. -/
structure TextOptions where
  indexing : Option TextFieldIndexing
  stored : Bool
deriving Repr, DecidableEq

/-- Model of the tantivy TEXT constant: tokenized with the default
tokenizer, indexed, not stored. -/
def TEXT : TextOptions := { indexing := some { tokenizer := "default" }, stored := false }

/-- Model of the tantivy STRING constant as documented by tantivy
(schema::STRING means the field is untokenized AND INDEXED): indexing
options are present, with the raw tokenizer. -/
def STRING : TextOptions := { indexing := some { tokenizer := "raw" }, stored := false }

/-- Model of combining text options with STORED via the pipe operator. -/
def withStored (o : TextOptions) : TextOptions := { o with stored := true }

/-- Model of tantivy FieldType, restricted to the one variant the schema of
this repository uses. -/
inductive FieldType where
  | str (opts : TextOptions)
deriving Repr, DecidableEq

/-- A schema is the ordered list of named fields; a Field handle is its
position in that list. -/
def SchemaModel := List (String × FieldType)

/-- The schema built by build_index (src/src/lib.rs lines 104-109): title
TEXT|STORED, body TEXT, loc STRING|STORED, archive_loc STRING|STORED. -/
def memexSchema : SchemaModel :=
  [("title", .str (withStored TEXT)),
   ("body", .str TEXT),
   ("loc", .str (withStored STRING)),
   ("archive_loc", .str (withStored STRING))]

/-- Model of the default-field selection in IndexServer::load
(src/src/api.rs lines 68-78): every field whose type is Str and whose
get_indexing_options() is Some, in schema order. -/
def defaultFields (schema : SchemaModel) : List Nat :=
  ((List.range schema.length).zip schema).filterMap fun p =>
    match p.2.2 with
    | .str o => if o.indexing.isSome then some p.1 else none

/-- Model of WalkState from the ignore crate, as used by the walker
callback. -/
inductive WalkState where
  | Continue
  | Skip
  | Quit
deriving Repr, DecidableEq

/-- Environment of one walker-callback invocation: whether the Ok entry is
a regular file, and the digest environment for it. -/
structure WalkEnv where
  isFile : Bool
  digestEnv : DigestEnv

/-- Model of the per-entry closure passed to walker.run in build_index
(src/src/lib.rs lines 139-157). The result records the entries sent on the
channel, the messages printed to stderr, and the returned WalkState. An Ok
entry that is a file is digested: a produced Entry is sent, a digest error
is printed, and Continue is returned in every Ok case; an Err entry prints
and returns Quit. -/
def walkerCallback (entry : Except String String) (env : WalkEnv) :
    List Entry × List String × WalkState :=
  match entry with
  | .ok path =>
    if env.isFile then
      match digest path env.digestEnv with
      | .ok (some e) => ([e], [], .Continue)
      | .ok none => ([], [], .Continue)
      | .error msg => ([], [msg], .Continue)
    else ([], [], .Continue)
  | .error e => ([], ["failed to read: " ++ e], .Quit)

/-- Boolean: pre is a prefix of s. Model of Rust str::starts_with. -/
def strStartsWith (s pre : String) : Bool :=
  pre.data.isPrefixOf s.data

/-- Boolean: pat occurs contiguously in cs. -/
def hasSubseq (pat : List Char) : List Char → Bool
  | [] => pat.isEmpty
  | c :: cs => pat.isPrefixOf (c :: cs) || hasSubseq pat cs

/-- Boolean: pat occurs as a substring of s. Model of Rust str::contains. -/
def strContains (s pat : String) : Bool :=
  hasSubseq pat.data s.data

/-- AlfredAction (src/src/api.rs lines 49-53): optional file and url. -/
structure AlfredAction where
  file : Option String
  url : Option String
deriving Repr, DecidableEq

/-- AlfredItem (src/src/api.rs lines 54-59). -/
structure AlfredItem where
  title : String
  arg : String
  action : AlfredAction
deriving Repr, DecidableEq

/-- The stored fields of one matched document as read back by
IndexServer::search (absent Entry fields were stored as ""). -/
structure StoredDoc where
  title : String
  loc : String
  archive_loc : String
deriving Repr, DecidableEq

/-- The location chosen for a matched document (src/src/api.rs lines
112-116): archive_loc when non-empty, else loc. -/
def chosenLocation (d : StoredDoc) : String :=
  if d.archive_loc.length = 0 then d.loc else d.archive_loc

/-- Model of the per-document result shaping in IndexServer::search
(src/src/api.rs lines 105-135): file is set when the chosen location starts
with "/", url is set when it contains "://"; the two conditions are tested
independently. -/
def shapeItem (d : StoredDoc) : AlfredItem :=
  let location := chosenLocation d
  { title := d.title,
    action := { file := if strStartsWith location "/" then some location else none,
                url := if strContains location "://" then some location else none },
    arg := location }

/-- The capacity build_index passes to sync_channel
(src/src/lib.rs line 115): exactly the configured thread count. -/
def buildIndexChannelCapacity (threads : Nat) : Nat := threads

/-- The state of the bounded channel: the entries enqueued and not yet
received, oldest first. -/
structure ChanState where
  queue : List Entry

/-- The transitions of std::sync::mpsc::sync_channel with a given capacity:
a send appends one entry, and is only enabled while the queue is below
capacity (a sender whose send is not enabled blocks); a receive removes the
oldest entry. -/
inductive ChanStep (cap : Nat) : ChanState → ChanState → Prop
  | send (s : ChanState) (e : Entry) (h : s.queue.length < cap) :
      ChanStep cap s ⟨s.queue ++ [e]⟩
  | recv (s : ChanState) (e : Entry) (rest : List Entry)
      (h : s.queue = e :: rest) : ChanStep cap s ⟨rest⟩

/-- The channel states reachable from the empty channel build_index
creates. -/
inductive ChanReach (cap : Nat) : ChanState → Prop
  | init : ChanReach cap ⟨[]⟩
  | step (s s' : ChanState) : ChanReach cap s → ChanStep cap s s' →
      ChanReach cap s'

/-- A decoded query string: each key with its list of values, as the
urlencoded middleware produces it (a present key always carries at least
one value). -/
def QsMap := List (String × List String)

/-- Model of HashMap::get on the decoded query string: the values of the
first binding of the key. -/
def qsGet (m : QsMap) (k : String) : Option (List String) :=
  match m with
  | [] => none
  | (k2, vs) :: rest => if k2 = k then some vs else qsGet rest k

/-- Digits of a decimal numeral to its value; none when the list is empty
or holds a non-digit. -/
def digitsToNat (cs : List Char) : Option Nat :=
  if cs ≠ [] && cs.all Char.isDigit then
    some (cs.foldl (fun n c => n * 10 + (c.toNat - 48)) 0)
  else none

/-- Model of usize::from_str on a 64-bit target: an optional leading '+'
followed by at least one decimal digit, rejecting values at or above
2^64. -/
def usizeFromStr (s : String) : Option Nat :=
  let core :=
    match s.data with
    | '+' :: rest => digitsToNat rest
    | cs => digitsToNat cs
  match core with
  | some n => if n < 2 ^ 64 then some n else none
  | none => none

/-- The outcome of the request handler before the index is consulted:
either the handler proceeds to IndexServer::search with a query string,
a hit count and an offset, or it returns an HTTP error response. -/
inductive HandlerResult where
  | ok (num_hits offset : Nat) (q : String)
  | clientError (statusCode : Nat) (msg : String)
deriving Repr, DecidableEq

/-- Model of fn search, the iron handler (src/src/api.rs lines 159-193),
up to the point where IndexServer::search is invoked. The input is the
decoded query string, or none when the urlencoded middleware failed to
decode it (also when the query string is absent). nhits and offset fall
back to 10 and 0 whenever the parameter is absent or fails usize parsing;
a missing q is a 400; a present parameter's first value is read. -/
def searchHandler (decoded : Option QsMap) : HandlerResult :=
  match decoded with
  | none => .clientError 400 "Failed to decode error"
  | some m =>
    let num_hits := ((qsGet m "nhits").bind
      (fun vs => usizeFromStr (vs.headD ""))).getD 10
    match qsGet m "q" with
    | none => .clientError 400 "Parameter q is missing from the query"
    | some qv =>
      let offset := ((qsGet m "offset").bind
        (fun vs => usizeFromStr (vs.headD ""))).getD 0
      .ok num_hits offset (qv.headD "")

example : usizeFromStr "17" = some 17 := by decide
example : usizeFromStr "+5" = some 5 := by decide
example : usizeFromStr "abc" = none := by decide
example : usizeFromStr "0" = some 0 := by decide
example : searchHandler (some [("q", ["x"])]) = .ok 10 0 "x" := by decide

/-- The position of a named field in a schema, in declaration order; this
is the Field handle tantivy hands back for it. -/
def fieldId (schema : SchemaModel) (fname : String) : Option Nat :=
  schema.findIdx? fun p => p.1 == fname

/-- Boolean: an Except value is the ok variant. -/
def exceptIsOk {ε α : Type} : Except ε α → Bool
  | .ok _ => true
  | .error _ => false

/-- A pdf environment in which pdftotext runs but produces nothing, so the
read back fails. -/
def noopPdfEnv : PdfEnv :=
  { spawn := .ok (), tmpCreated := false,
    readBack := .error "No such file or directory" }

/-- A digest environment with inert handler outcomes. -/
def noopDigestEnv : DigestEnv :=
  { pdf := noopPdfEnv, textContents := .ok "",
    weblocParsed := .error "plist parse error" }

/-- The stem of a non-empty file name is non-empty: the stem either is the
whole name or starts with the name's first character. -/
theorem stemOfName_ne_empty (name : String) (h : name ≠ "") :
    stemOfName name ≠ "" := by
  unfold stemOfName
  split
  · next hdd => subst hdd; decide
  · obtain ⟨cs⟩ := name
    cases cs with
    | nil => exact absurd rfl h
    | cons c rest =>
      simp only
      split
      · intro hc
        have : (String.mk (c :: beforeLastDot rest)).data = ("" : String).data :=
          congrArg String.data hc
        simp at this
      · exact h

/-- Claim C1 (counterexample): the exact-match fields loc (field 2) and
archive_loc (field 3) ARE among the query parser's default search fields,
because tantivy's STRING options carry indexing options (raw tokenizer), so
the filter in IndexServer::load keeps them. -/
theorem c1_exact_match_fields_are_default :
    fieldId memexSchema "loc" = some 2 ∧ 2 ∈ defaultFields memexSchema ∧
    fieldId memexSchema "archive_loc" = some 3 ∧ 3 ∈ defaultFields memexSchema := by
  decide

/-- Claim C1 (amended): at search-service startup, the query parser's
default search fields are all four indexed string fields of the schema —
title, body, loc and archive_loc — since the filter keeps every Str field
with indexing options present, and exact-match STRING fields are indexed. -/
theorem c1_default_fields_are_all_four :
    defaultFields memexSchema = [0, 1, 2, 3] ∧
    fieldId memexSchema "title" = some 0 ∧
    fieldId memexSchema "body" = some 1 ∧
    fieldId memexSchema "loc" = some 2 ∧
    fieldId memexSchema "archive_loc" = some 3 := by
  decide

/-- Claim C2 (counterexample): a per-entry read error does not let
traversal continue — the callback reports it and returns WalkState.Quit,
terminating further traversal. -/
theorem c2_read_error_quits :
    walkerCallback (Except.error "permission denied") ⟨true, noopDigestEnv⟩ =
      ([], ["failed to read: permission denied"], WalkState.Quit) ∧
    WalkState.Quit ≠ WalkState.Continue :=
  ⟨rfl, by decide⟩

/-- Claim C2 (amended): on EVERY read error the walker callback reports
the error and returns Quit, requesting early termination of traversal; an
Ok entry always yields Continue — per-file digest failures are reported and
only that file is skipped. -/
theorem c2_walker_error_handling :
    ∀ (e : String) (env : WalkEnv),
      walkerCallback (Except.error e) env =
        ([], ["failed to read: " ++ e], WalkState.Quit) ∧
      ∀ (path : String),
        (walkerCallback (Except.ok path) env).2.2 = WalkState.Continue := by
  intro e env
  refine ⟨rfl, fun path => ?_⟩
  obtain ⟨hf, de⟩ := env
  cases hf
  · rfl
  · cases h : digest path de with
    | error msg => simp [walkerCallback, h]
    | ok o => cases o <;> simp [walkerCallback, h]

/-- Claim C3 (counterexample): when pdftotext produces the temporary file
but the read back fails (for example the output is not valid UTF-8),
handle_pdf returns early with the error and the temporary file still
exists. -/
theorem c3_tmp_file_leak :
    (handle_pdf "/docs/a.pdf"
      ⟨.ok (), true, .error "stream did not contain valid UTF-8"⟩).2 = true ∧
    (handle_pdf "/docs/a.pdf"
      ⟨.ok (), true, .error "stream did not contain valid UTF-8"⟩).1 =
      .error "stream did not contain valid UTF-8" :=
  ⟨rfl, rfl⟩

/-- Claim C3 (amended): after handle_pdf returns, the temporary extraction
file exists exactly when the subprocess spawn succeeded, the subprocess
produced the file, and the read back failed; in particular it never exists
after the success path, nor when the subprocess produced no output. -/
theorem c3_tmp_file_after_handle_pdf :
    ∀ (path : String) (env : PdfEnv),
      (handle_pdf path env).2 =
        (exceptIsOk env.spawn && env.tmpCreated && !(exceptIsOk env.readBack)) := by
  intro path env
  obtain ⟨sp, tc, rb⟩ := env
  cases sp <;> cases tc <;> cases rb <;> rfl

/-- Claim C4 (counterexample): for the chosen location "/a://b" — which
begins with '/' and contains "://" — the shaped result sets BOTH
action.file and action.url. -/
theorem c4_both_actions_set :
    ((shapeItem ⟨"t", "", "/a://b"⟩).action.file.isSome = true) ∧
    ((shapeItem ⟨"t", "", "/a://b"⟩).action.url.isSome = true) := by
  decide

/-- Claim C4 (amended): action.file is set exactly when the chosen location
begins with '/' and action.url exactly when it contains "://"; hence at
most one of the two is set whenever the chosen location does not satisfy
both predicates at once. -/
theorem c4_at_most_one_action (d : StoredDoc)
    (h : ¬(strStartsWith (chosenLocation d) "/" = true ∧
           strContains (chosenLocation d) "://" = true)) :
    ¬((shapeItem d).action.file.isSome = true ∧
      (shapeItem d).action.url.isSome = true) := by
  intro hc
  apply h
  constructor
  · cases hs : strStartsWith (chosenLocation d) "/"
    · exact absurd hc.1 (by simp [shapeItem, hs])
    · rfl
  · cases hu : strContains (chosenLocation d) "://"
    · exact absurd hc.2 (by simp [shapeItem, hu])
    · rfl

/-- Claim C4 witness: the amended theorem applied to the stored document
with archive_loc "/tmp/a", whose location matches only the file
predicate. -/
theorem c4_at_most_one_action_witness :
    ¬((shapeItem ⟨"t", "", "/tmp/a"⟩).action.file.isSome = true ∧
      (shapeItem ⟨"t", "", "/tmp/a"⟩).action.url.isSome = true) :=
  c4_at_most_one_action ⟨"t", "", "/tmp/a"⟩ (by decide)

/-- Every Entry handle_pdf returns carries the file stem as its title. -/
theorem handle_pdf_ok_title (path : String) (env : PdfEnv) (e : Entry)
    (h : (handle_pdf path env).1 = .ok (some e)) : e.title = filename path := by
  obtain ⟨sp, tc, rb⟩ := env
  cases sp with
  | error a => simp [handle_pdf] at h
  | ok u =>
    cases tc with
    | false => simp [handle_pdf] at h
    | true =>
      cases rb with
      | error a => simp [handle_pdf] at h
      | ok s =>
        have h2 : ({ title := filename path, body := some s, loc := none,
                     archive_loc := some path } : Entry) = e := by
          simpa [handle_pdf] using h
        rw [← h2]

/-- A digest environment whose webloc parse produced a plist with an empty
Name and a URL. -/
def emptyNameEnv : DigestEnv :=
  { pdf := noopPdfEnv, textContents := .ok "",
    weblocParsed := .ok { name := some "", url := "http://example.com" } }

/-- Claim C5 (counterexample): a .webloc file whose property list carries
Name="" produces an Entry whose title is the empty string. -/
theorem c5_empty_title_from_webloc :
    digest "/x/a.webloc" emptyNameEnv =
      .ok (some { title := "", body := none,
                  loc := some "http://example.com", archive_loc := none }) := by
  rfl

/-- Claim C5 (amended): every Entry digest produces has a non-empty title,
provided the path's file-name component is non-empty and, when the webloc
parse succeeds with a present Name, that Name is non-empty. -/
theorem c5_digest_title_nonempty (path : String) (env : DigestEnv) (e : Entry)
    (hname : fileName path ≠ "")
    (hweb : ∀ w : Webloc, env.weblocParsed = .ok w →
      ∀ n : String, w.name = some n → n ≠ "")
    (hdig : digest path env = .ok (some e)) : e.title ≠ "" := by
  have hstem : filename path ≠ "" := stemOfName_ne_empty _ hname
  unfold digest at hdig
  split at hdig
  · next ext hext =>
    split at hdig
    · rw [handle_pdf_ok_title path env.pdf e hdig]
      exact hstem
    · split at hdig
      · cases hc : env.textContents with
        | error a => rw [hc] at hdig; simp [handle_text] at hdig
        | ok s =>
          rw [hc] at hdig
          simp only [handle_text, Except.ok.injEq, Option.some.injEq] at hdig
          rw [← hdig]
          exact hstem
      · split at hdig
        · cases hw : env.weblocParsed with
          | error a => rw [hw] at hdig; simp [handle_webloc] at hdig
          | ok w =>
            rw [hw] at hdig
            simp only [handle_webloc, Except.ok.injEq, Option.some.injEq] at hdig
            rw [← hdig]
            cases hn : w.name with
            | none => simpa [hn] using hstem
            | some n => simpa [hn] using hweb w hw n hn
        · simp at hdig
  · simp only [Except.ok.injEq, Option.some.injEq] at hdig
    rw [← hdig]
    exact hstem

/-- A digest environment whose text read succeeds with contents "hello". -/
def helloTextEnv : DigestEnv :=
  { pdf := noopPdfEnv, textContents := .ok "hello",
    weblocParsed := .error "plist parse error" }

/-- Claim C5 witness: the amended theorem applied to the text file
"/x/notes.txt" read as "hello". -/
theorem c5_digest_title_nonempty_witness :
    ({ title := "notes", body := some "hello", loc := none,
       archive_loc := some "/x/notes.txt" } : Entry).title ≠ "" :=
  c5_digest_title_nonempty "/x/notes.txt" helloTextEnv _ (by decide)
    (fun w hw => nomatch hw) rfl

/-- Claim C6 (counterexample): the filename component README of the path
"/a.d/README" has no extension, yet digest produces NO Entry for it: the
dispatch runs on the last dot of the whole path string, finds the
pseudo-extension "d/README", and matches no handler. -/
theorem c6_no_extension_filename_skipped :
    hasExtension "/a.d/README" = false ∧
    extensionOf "/a.d/README" = some "d/README" ∧
    digest "/a.d/README" noopDigestEnv = .ok none :=
  ⟨by decide, by decide, rfl⟩

/-- Claim C6 (amended): for every path string containing no '.' character
at all, digest produces Entry{title = filename stem, archive_loc = path,
body and loc absent}; the handling strategy is selected from the
case-sensitive segment after the last dot of the WHOLE path string, not of
the file name alone. -/
theorem c6_digest_no_dot (path : String) (env : DigestEnv)
    (h : path.data.contains '.' = false) :
    digest path env =
      .ok (some { title := filename path, body := none,
                  loc := none, archive_loc := some path }) := by
  unfold digest extensionOf
  rw [h]
  simp

/-- Claim C6 witness: the amended theorem applied to the dotless path
"README". -/
theorem c6_digest_no_dot_witness :
    digest "README" noopDigestEnv =
      .ok (some { title := filename "README", body := none,
                  loc := none, archive_loc := some "README" }) :=
  c6_digest_no_dot "README" noopDigestEnv (by decide)

/-- Claim C7 (counterexample): a file with the unrecognized extension "xyz"
produces NO Entry at all — digest returns Ok(None), not an Entry with title
and archive_loc. -/
theorem c7_unknown_extension_no_entry :
    extensionOf "/x/photo.xyz" = some "xyz" ∧
    ("xyz" ≠ "pdf" ∧ "xyz" ≠ "txt" ∧ "xyz" ≠ "markdown" ∧
     "xyz" ≠ "md" ∧ "xyz" ≠ "webloc") ∧
    digest "/x/photo.xyz" noopDigestEnv = .ok none :=
  ⟨by decide, by decide, rfl⟩

/-- Claim C7 (amended): for every file whose extension matches none of
pdf, txt, markdown, md, webloc, extraction produces no Entry: digest
returns Ok(None) and the file is excluded from the index. -/
theorem c7_unknown_extension_skips (path ext : String) (env : DigestEnv)
    (hx : extensionOf path = some ext)
    (h1 : ext ≠ "pdf") (h2 : ext ≠ "txt") (h3 : ext ≠ "markdown")
    (h4 : ext ≠ "md") (h5 : ext ≠ "webloc") :
    digest path env = .ok none := by
  unfold digest
  rw [hx]
  simp [h1, h2, h3, h4, h5]

/-- Claim C7 witness: the amended theorem applied to "a.bin". -/
theorem c7_unknown_extension_skips_witness :
    digest "a.bin" noopDigestEnv = .ok none :=
  c7_unknown_extension_skips "a.bin" "bin" noopDigestEnv (by decide)
    (by decide) (by decide) (by decide) (by decide) (by decide)

/-- Claim C8: the hand-off channel build_index creates has capacity exactly
the configured thread count T; every channel state reachable from the empty
channel holds at most T entries, and when T entries are pending no send
transition is enabled — a sending worker blocks instead of growing the
queue. -/
theorem c8_channel_bounded (T : Nat) :
    buildIndexChannelCapacity T = T ∧
    (∀ s : ChanState, ChanReach (buildIndexChannelCapacity T) s →
      s.queue.length ≤ T) ∧
    (∀ (s : ChanState) (e : Entry), T ≤ s.queue.length →
      ¬ ChanStep (buildIndexChannelCapacity T) s ⟨s.queue ++ [e]⟩) := by
  refine ⟨rfl, ?_, ?_⟩
  · intro s hs
    induction hs with
    | init => simp
    | step s1 s2 hr hstep ih =>
      cases hstep with
      | send e h =>
        show (s1.queue ++ [e]).length ≤ T
        simp only [buildIndexChannelCapacity] at h
        simp only [List.length_append, List.length_cons, List.length_nil]
        omega
      | recv e rest h =>
        show rest.length ≤ T
        rw [h] at ih
        simp only [List.length_cons] at ih
        omega
  · intro s e hfull hstep
    generalize hq : (ChanState.mk (s.queue ++ [e])) = t at hstep
    cases hstep with
    | send e2 h =>
      simp only [buildIndexChannelCapacity] at h
      omega
    | recv e2 rest h =>
      have h1 : s.queue ++ [e] = rest := congrArg ChanState.queue hq
      have h2 : s.queue.length = rest.length + 1 := by rw [h]; simp
      have h3 : rest.length = s.queue.length + 1 := by rw [← h1]; simp
      omega

/-- An Entry used to exercise the channel model. -/
def entryA : Entry :=
  { title := "t", body := none, loc := none, archive_loc := none }

/-- Claim C8 witness: the theorem applied at thread count 1, to the state
reached by one send, and to a send attempted on the full channel. -/
theorem c8_channel_bounded_witness :
    (ChanState.mk [entryA]).queue.length ≤ 1 ∧
    ¬ ChanStep (buildIndexChannelCapacity 1) ⟨[entryA]⟩ ⟨[entryA] ++ [entryA]⟩ :=
  ⟨(c8_channel_bounded 1).2.1 ⟨[entryA]⟩
      (ChanReach.step _ _ ChanReach.init (ChanStep.send ⟨[]⟩ entryA (by decide))),
   (c8_channel_bounded 1).2.2 ⟨[entryA]⟩ entryA (by decide)⟩

/-- Claim C9: when the query string cannot be decoded, and when it decodes
but carries no q parameter, the handler returns a 400 client-error response
(a plain value, not a crash), so the server remains healthy. -/
theorem c9_missing_q_is_400 :
    searchHandler none = .clientError 400 "Failed to decode error" ∧
    ∀ m : QsMap, qsGet m "q" = none →
      searchHandler (some m) =
        .clientError 400 "Parameter q is missing from the query" := by
  refine ⟨rfl, fun m h => ?_⟩
  simp only [searchHandler, h]

/-- Claim C9 witness: the theorem applied to a decoded query string that
carries only nhits. -/
theorem c9_missing_q_is_400_witness :
    searchHandler (some [("nhits", ["5"])]) =
      .clientError 400 "Parameter q is missing from the query" :=
  c9_missing_q_is_400.2 [("nhits", ["5"])] (by decide)

/-- The hit count the handler serves for a decoded query string: the first
nhits value when it parses as usize, else the default 10
(src/src/api.rs lines 169-172). -/
def effectiveNhits (m : QsMap) : Nat :=
  ((qsGet m "nhits").bind (fun vs => usizeFromStr (vs.headD ""))).getD 10

/-- The offset the handler serves for a decoded query string: the first
offset value when it parses as usize, else the default 0
(src/src/api.rs lines 180-183). -/
def effectiveOffset (m : QsMap) : Nat :=
  ((qsGet m "offset").bind (fun vs => usizeFromStr (vs.headD ""))).getD 0

/-- Claim C10: for every request carrying q, when nhits is present but does
not parse as an unsigned integer the handler returns no error — it serves
the query with the default hit count 10 (whatever offset serves); when
offset is present but does not parse, the query is served with the default
offset 0 (whatever nhits serves); and nhits=0 parses successfully, so a
query with nhits=0 is served with a hit count of 0. -/
theorem c10_malformed_nhits_offset_defaults :
    (∀ (m : QsMap) (qv nv : List String),
      qsGet m "q" = some qv →
      qsGet m "nhits" = some nv → usizeFromStr (nv.headD "") = none →
      searchHandler (some m) = .ok 10 (effectiveOffset m) (qv.headD "")) ∧
    (∀ (m : QsMap) (qv ov : List String),
      qsGet m "q" = some qv →
      qsGet m "offset" = some ov → usizeFromStr (ov.headD "") = none →
      searchHandler (some m) = .ok (effectiveNhits m) 0 (qv.headD "")) ∧
    (∀ (m : QsMap) (qv nv : List String),
      qsGet m "q" = some qv →
      qsGet m "nhits" = some nv → nv.headD "" = "0" →
      searchHandler (some m) = .ok 0 (effectiveOffset m) (qv.headD "")) := by
  refine ⟨?_, ?_, ?_⟩
  · intro m qv nv hq hn hnp
    simp only [List.headD_eq_head?] at hnp
    simp [searchHandler, effectiveOffset, hq, hn, hnp]
  · intro m qv ov hq ho hop
    simp only [List.headD_eq_head?] at hop
    simp [searchHandler, effectiveNhits, hq, ho, hop]
  · intro m qv nv hq hn hnz
    have hz : usizeFromStr "0" = some 0 := by decide
    simp only [List.headD_eq_head?] at hnz
    simp [searchHandler, effectiveOffset, hq, hn, hnz, hz]

/-- Claim C10 witness: the theorem applied to a request with nhits=ten and
no offset (served with 10 and the default offset 0), to a request with
offset=-1 and no nhits (served with the default hit count 10 and offset 0),
and to a request with nhits=0 (parsed and served as a hit count of 0). -/
theorem c10_malformed_nhits_offset_defaults_witness :
    searchHandler (some [("q", ["alpha"]), ("nhits", ["ten"])]) =
      .ok 10 (effectiveOffset [("q", ["alpha"]), ("nhits", ["ten"])]) "alpha" ∧
    searchHandler (some [("q", ["alpha"]), ("offset", ["-1"])]) =
      .ok (effectiveNhits [("q", ["alpha"]), ("offset", ["-1"])]) 0 "alpha" ∧
    searchHandler (some [("q", ["alpha"]), ("nhits", ["0"])]) =
      .ok 0 (effectiveOffset [("q", ["alpha"]), ("nhits", ["0"])]) "alpha" :=
  ⟨c10_malformed_nhits_offset_defaults.1
      [("q", ["alpha"]), ("nhits", ["ten"])]
      ["alpha"] ["ten"] (by decide) (by decide) (by decide),
   c10_malformed_nhits_offset_defaults.2.1
      [("q", ["alpha"]), ("offset", ["-1"])]
      ["alpha"] ["-1"] (by decide) (by decide) (by decide),
   c10_malformed_nhits_offset_defaults.2.2
      [("q", ["alpha"]), ("nhits", ["0"])]
      ["alpha"] ["0"] (by decide) (by decide) (by decide)⟩

end Memex
